import Mathlib

/-!
Shallow embedding of `src/main.go` (package main of SoulRiaper/gopoke).

The program is a linear script: it issues one HTTP GET from a worker
goroutine which signals exactly one outcome on a pair of channels, decodes
the body into a `Pokemon` struct with `json.Unmarshal`, prints six fields,
and then optionally downloads and saves two sprite images.

The embedding makes the external world explicit:
* `GetResult` is the outcome an HTTP GET can have (transport error, or a
  response with a status code and a body read that may itself fail);
* `Env` packages the outcome of each of the at-most-three GETs, the
  outcome of the two `os.Create`/`File.Write` call sites, and the
  byte-level JSON grammar parser (the text-to-tree half of
  `json.Unmarshal`, which the claims never need to inspect);
* a run produces a trace of `Event`s (HTTP GETs, channel sends, console
  prints, file creations and writes) plus a final file-system state, so
  temporal and error-handling claims become statements about the trace.

Machine integers: the Go `int32` struct fields are embedded as `Int`
together with an explicit range check in the decoder; HTTP status codes
are `Int`; bodies are `List Nat` byte strings.
-/

/-- Byte strings (`[]byte` in Go). -/
abbrev Bytes := List Nat

/-- `type Stat struct { Name string; URL string }` with tags `name`, `url`. -/
structure Stat where
  name : String
  url : String
deriving DecidableEq, Repr

/-- `type StatInfo struct { Stat Stat; BaseStat int32 }` with tags `stat`, `base_stat`. -/
structure StatInfo where
  stat : Stat
  baseStat : Int
deriving DecidableEq, Repr

/-- `type Sprites struct { FrontDefault string; BackDefault string }`
with tags `front_default`, `back_default`. -/
structure Sprites where
  frontDefault : String
  backDefault : String
deriving DecidableEq, Repr

/-- `type Pokemon struct` of src/main.go, tags `name`, `base_experience`,
`height`, `id`, `sprites`, `stats`. -/
structure Pokemon where
  name : String
  baseExp : Int
  height : Int
  id : Int
  sprites : Sprites
  statInfo : List StatInfo
deriving DecidableEq, Repr

/-- The zero value of `Stat`. -/
def zeroStat : Stat := { name := "", url := "" }

/-- The zero value of `StatInfo`. -/
def zeroStatInfo : StatInfo := { stat := zeroStat, baseStat := 0 }

/-- The zero value of `Sprites`. -/
def zeroSprites : Sprites := { frontDefault := "", backDefault := "" }

/-- The zero value of `Pokemon`, i.e. `var data Pokemon` before decoding. -/
def zeroPokemon : Pokemon :=
  { name := "", baseExp := 0, height := 0, id := 0,
    sprites := zeroSprites, statInfo := [] }

/-! ### JSON values and the struct half of `encoding/json.Unmarshal` -/

/-- Abstract JSON trees.  Numeric literals are embedded as integers; the
program's schema only decodes into `string` and `int32` fields, so
non-integer numerics would only ever add one more mismatch case. -/
inductive Json where
  | null : Json
  | bool (b : Bool) : Json
  | num (n : Int) : Json
  | str (s : String) : Json
  | arr (xs : List Json) : Json
  | obj (kvs : List (String × Json)) : Json

/-- ASCII lower-casing of a character (the tags of this schema are ASCII). -/
def asciiLower (c : Char) : Char :=
  if 65 ≤ c.toNat && c.toNat ≤ 90 then Char.ofNat (c.toNat + 32) else c

/-- Key matching of `encoding/json`: an incoming object key is matched to a
struct field tag case-insensitively (Go prefers an exact match, but with the
pairwise case-insensitively distinct tags of this schema that never
disambiguates anything). -/
def keyMatches (k tag : String) : Bool :=
  k.data.map asciiLower == tag.data.map asciiLower

/-- Smallest `int32` value. -/
def int32Min : Int := -2147483648

/-- Largest `int32` value. -/
def int32Max : Int := 2147483647

/-- `json.Unmarshal` of a JSON value into a `string` field holding `cur`:
a JSON string replaces it, JSON `null` leaves it unchanged, anything else
is a type error. -/
def decodeString (cur : String) : Json → Except String String
  | Json.null => Except.ok cur
  | Json.str s => Except.ok s
  | _ => Except.error "cannot unmarshal value into field of type string"

/-- `json.Unmarshal` of a JSON value into an `int32` field holding `cur`:
a JSON number in range replaces it, an out-of-range number is an error,
JSON `null` leaves it unchanged, anything else is a type error. -/
def decodeInt32 (cur : Int) : Json → Except String Int
  | Json.null => Except.ok cur
  | Json.num n =>
      if int32Min ≤ n && n ≤ int32Max then Except.ok n
      else Except.error "number overflows int32"
  | _ => Except.error "cannot unmarshal value into field of type int32"

/-- Fold of `json.Unmarshal` over the keys of an object decoded into a
`Stat`: keys are processed in order, later matches overwrite earlier ones,
unmatched keys are ignored. -/
def decodeStatObj (cur : Stat) : List (String × Json) → Except String Stat
  | [] => Except.ok cur
  | (k, v) :: rest =>
      if keyMatches k "name" then
        match decodeString cur.name v with
        | Except.error e => Except.error e
        | Except.ok s => decodeStatObj { cur with name := s } rest
      else if keyMatches k "url" then
        match decodeString cur.url v with
        | Except.error e => Except.error e
        | Except.ok s => decodeStatObj { cur with url := s } rest
      else decodeStatObj cur rest

/-- `json.Unmarshal` of a JSON value into a `Stat` struct field. -/
def decodeStat (cur : Stat) : Json → Except String Stat
  | Json.null => Except.ok cur
  | Json.obj kvs => decodeStatObj cur kvs
  | _ => Except.error "cannot unmarshal value into field of type Stat"

/-- Fold of `json.Unmarshal` over the keys of an object decoded into a
`StatInfo`. -/
def decodeStatInfoObj (cur : StatInfo) : List (String × Json) → Except String StatInfo
  | [] => Except.ok cur
  | (k, v) :: rest =>
      if keyMatches k "stat" then
        match decodeStat cur.stat v with
        | Except.error e => Except.error e
        | Except.ok s => decodeStatInfoObj { cur with stat := s } rest
      else if keyMatches k "base_stat" then
        match decodeInt32 cur.baseStat v with
        | Except.error e => Except.error e
        | Except.ok n => decodeStatInfoObj { cur with baseStat := n } rest
      else decodeStatInfoObj cur rest

/-- `json.Unmarshal` of a JSON value into a `StatInfo` element. -/
def decodeStatInfo (cur : StatInfo) : Json → Except String StatInfo
  | Json.null => Except.ok cur
  | Json.obj kvs => decodeStatInfoObj cur kvs
  | _ => Except.error "cannot unmarshal value into field of type StatInfo"

/-- `json.Unmarshal` of the elements of a JSON array into a `[]StatInfo`
slice: each element is decoded into a fresh zero `StatInfo`. -/
def decodeStatInfoList : List Json → Except String (List StatInfo)
  | [] => Except.ok []
  | v :: rest =>
      match decodeStatInfo zeroStatInfo v with
      | Except.error e => Except.error e
      | Except.ok si =>
          match decodeStatInfoList rest with
          | Except.error e => Except.error e
          | Except.ok l => Except.ok (si :: l)

/-- `json.Unmarshal` of a JSON value into the `[]StatInfo` field. -/
def decodeStats (cur : List StatInfo) : Json → Except String (List StatInfo)
  | Json.null => Except.ok cur
  | Json.arr xs => decodeStatInfoList xs
  | _ => Except.error "cannot unmarshal value into field of type []StatInfo"

/-- Fold of `json.Unmarshal` over the keys of an object decoded into a
`Sprites`. -/
def decodeSpritesObj (cur : Sprites) : List (String × Json) → Except String Sprites
  | [] => Except.ok cur
  | (k, v) :: rest =>
      if keyMatches k "front_default" then
        match decodeString cur.frontDefault v with
        | Except.error e => Except.error e
        | Except.ok s => decodeSpritesObj { cur with frontDefault := s } rest
      else if keyMatches k "back_default" then
        match decodeString cur.backDefault v with
        | Except.error e => Except.error e
        | Except.ok s => decodeSpritesObj { cur with backDefault := s } rest
      else decodeSpritesObj cur rest

/-- `json.Unmarshal` of a JSON value into the `Sprites` field. -/
def decodeSprites (cur : Sprites) : Json → Except String Sprites
  | Json.null => Except.ok cur
  | Json.obj kvs => decodeSpritesObj cur kvs
  | _ => Except.error "cannot unmarshal value into field of type Sprites"

/-- Fold of `json.Unmarshal` over the keys of the top-level object decoded
into a `Pokemon`: keys in order, each matched case-insensitively against
the six tags, unmatched keys ignored, any field decode error is reported. -/
def decodePokemonObj (cur : Pokemon) : List (String × Json) → Except String Pokemon
  | [] => Except.ok cur
  | (k, v) :: rest =>
      if keyMatches k "name" then
        match decodeString cur.name v with
        | Except.error e => Except.error e
        | Except.ok s => decodePokemonObj { cur with name := s } rest
      else if keyMatches k "base_experience" then
        match decodeInt32 cur.baseExp v with
        | Except.error e => Except.error e
        | Except.ok n => decodePokemonObj { cur with baseExp := n } rest
      else if keyMatches k "height" then
        match decodeInt32 cur.height v with
        | Except.error e => Except.error e
        | Except.ok n => decodePokemonObj { cur with height := n } rest
      else if keyMatches k "id" then
        match decodeInt32 cur.id v with
        | Except.error e => Except.error e
        | Except.ok n => decodePokemonObj { cur with id := n } rest
      else if keyMatches k "sprites" then
        match decodeSprites cur.sprites v with
        | Except.error e => Except.error e
        | Except.ok s => decodePokemonObj { cur with sprites := s } rest
      else if keyMatches k "stats" then
        match decodeStats cur.statInfo v with
        | Except.error e => Except.error e
        | Except.ok l => decodePokemonObj { cur with statInfo := l } rest
      else decodePokemonObj cur rest

/-- The struct half of `json.Unmarshal(body, &data)` for `var data Pokemon`:
a JSON object is folded over its keys starting from the zero value, JSON
`null` leaves the zero value, anything else is a type error.  (Go's decoder
keeps the first type error and goes on decoding; since `parseJSON` throws
the partial value away on error, aborting at the first error is
observationally the same.) -/
def unmarshalPokemon : Json → Except String Pokemon
  | Json.null => Except.ok zeroPokemon
  | Json.obj kvs => decodePokemonObj zeroPokemon kvs
  | _ => Except.error "cannot unmarshal value into Go value of type Pokemon"

/-- `func parseJSON(body []byte) (Pokemon, error)` of src/main.go, with the
byte-level JSON grammar parser `p` (the text-to-tree half of
`json.Unmarshal`, including its syntax errors) passed in as part of the
environment; any failure is wrapped as `error parsing JSON: %v`. -/
def parseJSON (p : Bytes → Except String Json) (body : Bytes) : Except String Pokemon :=
  match p body with
  | Except.error e => Except.error ("error parsing JSON: " ++ e)
  | Except.ok j =>
      match unmarshalPokemon j with
      | Except.error e => Except.error ("error parsing JSON: " ++ e)
      | Except.ok data => Except.ok data

/-! ### The external world and the event trace -/

/-- The outcome an HTTP GET call site can have: a transport error from
`http.Get`/`client.Get`, or a response carrying a status code together with
the outcome of `io.ReadAll` on its body. -/
inductive GetResult where
  | netErr (msg : String) : GetResult
  | resp (status : Int) (readBody : Except String Bytes) : GetResult

/-- The three HTTP GET call sites of the program: the main API request in
`fetchData`, and the front and back sprite downloads. -/
inductive Site where
  | mainRes : Site
  | front : Site
  | back : Site
deriving DecidableEq, Repr

/-- Observable events of a run: HTTP GETs (tagged with their call site),
the two channel sends of `fetchData`, console prints (one event per
`fmt.Println` line), and file creations/writes. -/
inductive Event where
  | httpGet (site : Site) (url : String) : Event
  | sendResult (body : Bytes) : Event
  | sendError (msg : String) : Event
  | print (line : String) : Event
  | fileCreate (filename : String) : Event
  | fileWrite (filename : String) (data : Bytes) : Event
deriving DecidableEq, Repr

/-- The local file system: contents by file name. -/
abbrev FS := String → Option Bytes

/-- Point update of the file system. -/
def fsUpdate (fs : FS) (filename : String) (data : Bytes) : FS :=
  fun g => if g = filename then some data else fs g

/-- One run's worth of external nondeterminism: the outcome of each GET
call site, the outcomes of `os.Create` and `File.Write` at the two
`saveSprite` call sites (`some msg` is a failure), and the byte-level JSON
grammar parser used by `json.Unmarshal`. -/
structure Env where
  mainGet : GetResult
  frontGet : GetResult
  backGet : GetResult
  frontCreate : Option String
  frontWrite : Option String
  backCreate : Option String
  backWrite : Option String
  parse : Bytes → Except String Json

/-- `func fetchData(url, wg, resultChan, errorChan)` of src/main.go as the
trace it emits: the GET, then exactly one channel send following the
source's error ladder (transport error, then status check against
`http.StatusOK`, then body read). -/
def fetchData (url : String) (r : GetResult) : List Event :=
  Event.httpGet Site.mainRes url ::
    match r with
    | GetResult.netErr e => [Event.sendError ("HTTP request error: " ++ e)]
    | GetResult.resp status readBody =>
        if status ≠ 200 then
          [Event.sendError ("unexpected status code: " ++ toString status)]
        else
          match readBody with
          | Except.error e => [Event.sendError ("error reading response body: " ++ e)]
          | Except.ok body => [Event.sendResult body]

/-- The value `main`'s `select` receives from `fetchData`'s channels:
`success body` when the body was sent on `resultChan`, `failure msg` when
an error was sent on `errorChan`.  Mirrors the same error ladder. -/
inductive FetchOutcome where
  | success (body : Bytes) : FetchOutcome
  | failure (msg : String) : FetchOutcome
deriving DecidableEq, Repr

/-- The outcome `fetchData` signals for a given GET result. -/
def fetchOutcome : GetResult → FetchOutcome
  | GetResult.netErr e => FetchOutcome.failure ("HTTP request error: " ++ e)
  | GetResult.resp status readBody =>
      if status ≠ 200 then
        FetchOutcome.failure ("unexpected status code: " ++ toString status)
      else
        match readBody with
        | Except.error e => FetchOutcome.failure ("error reading response body: " ++ e)
        | Except.ok body => FetchOutcome.success body

/-- `func downloadSprite(url string) ([]byte, error)` of src/main.go:
the same error ladder as `fetchData` but returning instead of sending
(the GET event itself is emitted by the caller's step). -/
def downloadSprite : GetResult → Except String Bytes
  | GetResult.netErr e => Except.error ("error downloading sprite: " ++ e)
  | GetResult.resp status readBody =>
      if status ≠ 200 then
        Except.error ("unexpected status code: " ++ toString status)
      else
        match readBody with
        | Except.error e => Except.error ("error reading sprite data: " ++ e)
        | Except.ok spriteData => Except.ok spriteData

/-- Result of `saveSprite`: its events, the file system afterwards, and
`some msg` when it returned an error. -/
structure SaveResult where
  events : List Event
  fs : FS
  result : Option String

/-- `func saveSprite(data []byte, filename string) error` of src/main.go.
`os.Create` truncates (or creates) the file to empty content; on create
failure nothing is written; a successful `file.Write` leaves `data` as the
file's content.  `cErr`/`wErr` are the environment's outcomes for the two
fallible calls. -/
def saveSprite (data : Bytes) (filename : String) (cErr wErr : Option String)
    (fs : FS) : SaveResult :=
  match cErr with
  | some e =>
      { events := [Event.fileCreate filename], fs := fs,
        result := some ("error creating file: " ++ e) }
  | none =>
      match wErr with
      | some e =>
          { events := [Event.fileCreate filename],
            fs := fsUpdate fs filename [],
            result := some ("error saving sprite: " ++ e) }
      | none =>
          { events := [Event.fileCreate filename, Event.fileWrite filename data],
            fs := fsUpdate fs filename data,
            result := none }

/-- `filepath.Join(dir, file)` for the call pattern used in src/main.go:
`Join` cleans its result, so joining on to `"."` gives back the file name
(for the non-empty file names built here). -/
def filepathJoin (dir file : String) : String :=
  if dir = "." then file else dir ++ "/" ++ file

/-- One sprite block of `main` (lines 139-152 for the front, 154-167 for
the back): skipped when the URL is empty; otherwise a GET, then either the
download-error print, or `saveSprite` followed by the save-error print or
the saved-as print. -/
def spriteStep (site : Site) (lower upper : String) (url filename : String)
    (r : GetResult) (cErr wErr : Option String) (fs : FS) : List Event × FS :=
  if url = "" then ([], fs)
  else
    match downloadSprite r with
    | Except.error e =>
        ([Event.httpGet site url,
          Event.print ("Error downloading " ++ lower ++ " sprite: " ++ e)], fs)
    | Except.ok spriteData =>
        let s := saveSprite spriteData filename cErr wErr fs
        match s.result with
        | some e =>
            (Event.httpGet site url :: s.events ++
              [Event.print ("Error saving " ++ lower ++ " sprite: " ++ e)], s.fs)
        | none =>
            (Event.httpGet site url :: s.events ++
              [Event.print (upper ++ " sprite saved as: " ++ filename)], s.fs)

/-- `fmt.Println`'s rendering of a `Sprites` value (`%v` of a struct). -/
def goShowSprites (s : Sprites) : String :=
  "\x7b" ++ s.frontDefault ++ " " ++ s.backDefault ++ "\x7d"

/-- `fmt.Println`'s rendering of a `Stat` value. -/
def goShowStat (s : Stat) : String := "\x7b" ++ s.name ++ " " ++ s.url ++ "\x7d"

/-- `fmt.Println`'s rendering of a `StatInfo` value. -/
def goShowStatInfo (si : StatInfo) : String :=
  "\x7b" ++ goShowStat si.stat ++ " " ++ toString si.baseStat ++ "\x7d"

/-- `fmt.Println`'s rendering of a `[]StatInfo` slice. -/
def goShowStatList (l : List StatInfo) : String :=
  "[" ++ String.intercalate " " (l.map goShowStatInfo) ++ "]"

/-- The six field lines printed by `main` (src/main.go lines 131-136). -/
def fieldPrints (p : Pokemon) : List String :=
  ["Pokemon Name: " ++ p.name,
   "Pokemon BaseExp: " ++ toString p.baseExp,
   "Pokemon Height: " ++ toString p.height,
   "Pokemon Id: " ++ toString p.id,
   "Pokemon Sprites: " ++ goShowSprites p.sprites,
   "Pokemon Abilities: " ++ goShowStatList p.statInfo]

/-- The fixed URL of the main request. -/
def mainUrl : String := "https://pokeapi-proxy.freecodecamp.rocks/api/pokemon/1/"

/-- The front sprite's file name for a decoded name `n`:
`filepath.Join(".", fmt.Sprintf("%s_front.png", n))`. -/
def frontFilename (n : String) : String := filepathJoin "." (n ++ "_front.png")

/-- The back sprite's file name for a decoded name `n`. -/
def backFilename (n : String) : String := filepathJoin "." (n ++ "_back.png")

/-- `func main()` of src/main.go as trace plus final file system.  The
worker goroutine sends exactly one value on exactly one channel and `main`'s
`select` receives it (the closer goroutine only runs after that handoff),
so the run is the sequential composition: fetch, branch on the received
signal, decode, print the six fields, then the two sprite blocks. -/
def mainRun (env : Env) (fs : FS) : List Event × FS :=
  let ft := fetchData mainUrl env.mainGet
  match fetchOutcome env.mainGet with
  | FetchOutcome.failure msg => (ft ++ [Event.print ("Error: " ++ msg)], fs)
  | FetchOutcome.success body =>
      match parseJSON env.parse body with
      | Except.error e => (ft ++ [Event.print ("Error: " ++ e)], fs)
      | Except.ok pokemon =>
          let s1 := spriteStep Site.front "front" "Front"
            pokemon.sprites.frontDefault (frontFilename pokemon.name)
            env.frontGet env.frontCreate env.frontWrite fs
          let s2 := spriteStep Site.back "back" "Back"
            pokemon.sprites.backDefault (backFilename pokemon.name)
            env.backGet env.backCreate env.backWrite s1.2
          (ft ++ (fieldPrints pokemon).map Event.print ++ s1.1 ++ s2.1, s2.2)

/-! ### Derived notions used in the statements -/

/-- The channel event `fetchData` emits for a given received outcome. -/
def signalEvent : FetchOutcome → Event
  | FetchOutcome.success body => Event.sendResult body
  | FetchOutcome.failure msg => Event.sendError msg

/-- Is an event a channel send (on `resultChan` or `errorChan`)? -/
def isSignal : Event → Bool
  | Event.sendResult _ => true
  | Event.sendError _ => true
  | _ => false

/-- Is an event one of the sprite-section effects (a sprite GET, a file
creation, or a file write)? -/
def isSpriteEvent : Event → Bool
  | Event.httpGet Site.front _ => true
  | Event.httpGet Site.back _ => true
  | Event.fileCreate _ => true
  | Event.fileWrite _ _ => true
  | _ => false

/-- Is an event an HTTP GET from call site `s`? -/
def isGetAt (s : Site) : Event → Bool
  | Event.httpGet s2 _ => s2 == s
  | _ => false

/-- Number of HTTP GETs a trace issues from call site `s`. -/
def countGets (s : Site) (t : List Event) : Nat :=
  (t.filter (isGetAt s)).length

/-- Number of channel sends in a trace. -/
def countSignals (t : List Event) : Nat := (t.filter isSignal).length

/-- The six JSON keys the `Pokemon` schema decodes. -/
def pokeTags : List String :=
  ["name", "base_experience", "height", "id", "sprites", "stats"]

/-- The empty file system. -/
def fsEmpty : FS := fun _ => none

/-! ### Concrete environments used by the witnesses and counterexamples -/

/-- A fully successful environment: the API returns a body that parses to a
complete object, both sprite downloads succeed, both saves succeed. -/
def envAllOk : Env :=
  { mainGet := GetResult.resp 200 (Except.ok [1, 2]),
    frontGet := GetResult.resp 200 (Except.ok [7]),
    backGet := GetResult.resp 200 (Except.ok [8]),
    frontCreate := none, frontWrite := none,
    backCreate := none, backWrite := none,
    parse := fun _ => Except.ok (Json.obj
      [("name", Json.str "bulbasaur"),
       ("base_experience", Json.num 64),
       ("height", Json.num 7),
       ("id", Json.num 1),
       ("sprites", Json.obj
         [("front_default", Json.str "fu"), ("back_default", Json.str "bu")]),
       ("stats", Json.arr [Json.obj
         [("stat", Json.obj [("name", Json.str "hp"), ("url", Json.str "su")]),
          ("base_stat", Json.num 45)]])]) }

/-- The `Pokemon` that `envAllOk`'s body decodes to. -/
def pAllOk : Pokemon :=
  { name := "bulbasaur", baseExp := 64, height := 7, id := 1,
    sprites := { frontDefault := "fu", backDefault := "bu" },
    statInfo := [{ stat := { name := "hp", url := "su" }, baseStat := 45 }] }

/-- A fetch succeeds but the body is malformed JSON. -/
def envParseErr : Env :=
  { mainGet := GetResult.resp 200 (Except.ok [1]),
    frontGet := GetResult.netErr "unused",
    backGet := GetResult.netErr "unused",
    frontCreate := none, frontWrite := none,
    backCreate := none, backWrite := none,
    parse := fun _ => Except.error "unexpected end of JSON input" }

/-- The decode succeeds with a non-empty front URL and empty back URL, but
the front sprite download fails at the transport level. -/
def envFrontDown : Env :=
  { mainGet := GetResult.resp 200 (Except.ok [1]),
    frontGet := GetResult.netErr "connection refused",
    backGet := GetResult.netErr "unused",
    frontCreate := none, frontWrite := none,
    backCreate := none, backWrite := none,
    parse := fun _ => Except.ok (Json.obj
      [("sprites", Json.obj [("front_default", Json.str "u")])]) }

/-- The `Pokemon` that `envFrontDown`'s body decodes to. -/
def pFrontDown : Pokemon :=
  { zeroPokemon with sprites := { frontDefault := "u", backDefault := "" } }

/-- The decode succeeds with both sprite URLs non-empty, the front download
fails, the back download and save succeed. -/
def envFrontDownBackOk : Env :=
  { mainGet := GetResult.resp 200 (Except.ok [1]),
    frontGet := GetResult.netErr "timeout",
    backGet := GetResult.resp 200 (Except.ok [9]),
    frontCreate := none, frontWrite := none,
    backCreate := none, backWrite := none,
    parse := fun _ => Except.ok (Json.obj
      [("sprites", Json.obj
        [("front_default", Json.str "fu"), ("back_default", Json.str "bu")])]) }

/-- The `Pokemon` that `envFrontDownBackOk`'s body decodes to. -/
def pFrontDownBackOk : Pokemon :=
  { zeroPokemon with sprites := { frontDefault := "fu", backDefault := "bu" } }

/-- A grammar parser returning an object with a single unmatched key. -/
def parseJunkKey : Bytes → Except String Json :=
  fun _ => Except.ok (Json.obj [("foo", Json.num 1)])

/-- A grammar parser returning `{"NAME": 5}`: every expected key is absent
from the object, but `"NAME"` is a case-insensitive variant of `"name"`
whose value has the wrong type. -/
def parseUpperName : Bytes → Except String Json :=
  fun _ => Except.ok (Json.obj [("NAME", Json.num 5)])

/-- The trace of a run in `envAllOk` starting from the empty file system. -/
def traceAllOk : List Event :=
  [Event.httpGet Site.mainRes mainUrl,
   Event.sendResult [1, 2],
   Event.print "Pokemon Name: bulbasaur",
   Event.print "Pokemon BaseExp: 64",
   Event.print "Pokemon Height: 7",
   Event.print "Pokemon Id: 1",
   Event.print "Pokemon Sprites: {fu bu}",
   Event.print "Pokemon Abilities: [{{hp su} 45}]",
   Event.httpGet Site.front "fu",
   Event.fileCreate "bulbasaur_front.png",
   Event.fileWrite "bulbasaur_front.png" [7],
   Event.print "Front sprite saved as: bulbasaur_front.png",
   Event.httpGet Site.back "bu",
   Event.fileCreate "bulbasaur_back.png",
   Event.fileWrite "bulbasaur_back.png" [8],
   Event.print "Back sprite saved as: bulbasaur_back.png"]

/-- The trace of a run in `envFrontDown`. -/
def traceFrontDown : List Event :=
  [Event.httpGet Site.mainRes mainUrl,
   Event.sendResult [1],
   Event.print "Pokemon Name: ",
   Event.print "Pokemon BaseExp: 0",
   Event.print "Pokemon Height: 0",
   Event.print "Pokemon Id: 0",
   Event.print "Pokemon Sprites: {u }",
   Event.print "Pokemon Abilities: []",
   Event.httpGet Site.front "u",
   Event.print "Error downloading front sprite: error downloading sprite: connection refused"]

/-- The trace of a run in `envFrontDownBackOk`. -/
def traceFrontDownBackOk : List Event :=
  [Event.httpGet Site.mainRes mainUrl,
   Event.sendResult [1],
   Event.print "Pokemon Name: ",
   Event.print "Pokemon BaseExp: 0",
   Event.print "Pokemon Height: 0",
   Event.print "Pokemon Id: 0",
   Event.print "Pokemon Sprites: {fu bu}",
   Event.print "Pokemon Abilities: []",
   Event.httpGet Site.front "fu",
   Event.print "Error downloading front sprite: error downloading sprite: timeout",
   Event.httpGet Site.back "bu",
   Event.fileCreate "_back.png",
   Event.fileWrite "_back.png" [9],
   Event.print "Back sprite saved as: _back.png"]

/-- The front sprite block of `main` as a function of the environment, the
decoded `Pokemon` and the incoming file system. -/
def frontStepOf (env : Env) (p : Pokemon) (fs : FS) : List Event × FS :=
  spriteStep Site.front "front" "Front" p.sprites.frontDefault
    (frontFilename p.name) env.frontGet env.frontCreate env.frontWrite fs

/-- The back sprite block of `main`. -/
def backStepOf (env : Env) (p : Pokemon) (fs : FS) : List Event × FS :=
  spriteStep Site.back "back" "Back" p.sprites.backDefault
    (backFilename p.name) env.backGet env.backCreate env.backWrite fs

/-! ### Shape lemmas -/

/-- `fetchData` is the GET followed by the single channel send of the
outcome `main` receives. -/
theorem fetchData_eq (url : String) (r : GetResult) :
    fetchData url r = [Event.httpGet Site.mainRes url, signalEvent (fetchOutcome r)] := by
  cases r with
  | netErr e => rfl
  | resp status rb =>
      by_cases hs : status = 200
      · subst hs
        cases rb with
        | error e => simp [fetchData, fetchOutcome, signalEvent]
        | ok b => simp [fetchData, fetchOutcome, signalEvent]
      · simp [fetchData, fetchOutcome, signalEvent, hs]

/-- `saveSprite` when `os.Create` fails. -/
theorem saveSprite_createErr (data : Bytes) (fn : String) (w : Option String)
    (fs : FS) (e : String) :
    saveSprite data fn (some e) w fs =
      { events := [Event.fileCreate fn], fs := fs,
        result := some ("error creating file: " ++ e) } := rfl

/-- `saveSprite` when `os.Create` succeeds but `File.Write` fails. -/
theorem saveSprite_writeErr (data : Bytes) (fn : String) (fs : FS) (e : String) :
    saveSprite data fn none (some e) fs =
      { events := [Event.fileCreate fn], fs := fsUpdate fs fn [],
        result := some ("error saving sprite: " ++ e) } := rfl

/-- `saveSprite` when both calls succeed. -/
theorem saveSprite_noErr (data : Bytes) (fn : String) (fs : FS) :
    saveSprite data fn none none fs =
      { events := [Event.fileCreate fn, Event.fileWrite fn data],
        fs := fsUpdate fs fn data, result := none } := rfl

/-- A sprite block with an empty URL is skipped entirely. -/
theorem spriteStep_empty (site : Site) (lo up fn : String) (r : GetResult)
    (c w : Option String) (fs : FS) :
    spriteStep site lo up "" fn r c w fs = ([], fs) := rfl

/-- A sprite block whose download fails prints the error and stops. -/
theorem spriteStep_dlErr (site : Site) (lo up url fn : String) (r : GetResult)
    (c w : Option String) (fs : FS) (e : String)
    (hu : url ≠ "") (hd : downloadSprite r = Except.error e) :
    spriteStep site lo up url fn r c w fs =
      ([Event.httpGet site url,
        Event.print ("Error downloading " ++ lo ++ " sprite: " ++ e)], fs) := by
  simp [spriteStep, hu, hd]

/-- A sprite block whose download succeeds but whose save fails. -/
theorem spriteStep_saveErr (site : Site) (lo up url fn : String) (r : GetResult)
    (c w : Option String) (fs : FS) (d : Bytes) (e : String)
    (hu : url ≠ "") (hd : downloadSprite r = Except.ok d)
    (hs : (saveSprite d fn c w fs).result = some e) :
    spriteStep site lo up url fn r c w fs =
      (Event.httpGet site url :: (saveSprite d fn c w fs).events ++
        [Event.print ("Error saving " ++ lo ++ " sprite: " ++ e)],
       (saveSprite d fn c w fs).fs) := by
  simp [spriteStep, hu, hd, hs]

/-- A sprite block whose download and save both succeed. -/
theorem spriteStep_saveOk (site : Site) (lo up url fn : String) (r : GetResult)
    (c w : Option String) (fs : FS) (d : Bytes)
    (hu : url ≠ "") (hd : downloadSprite r = Except.ok d)
    (hs : (saveSprite d fn c w fs).result = none) :
    spriteStep site lo up url fn r c w fs =
      (Event.httpGet site url :: (saveSprite d fn c w fs).events ++
        [Event.print (up ++ " sprite saved as: " ++ fn)],
       (saveSprite d fn c w fs).fs) := by
  simp [spriteStep, hu, hd, hs]

/-- The HTTP GETs occurring in a sprite block: exactly the block's own GET,
and only when its URL is non-empty. -/
theorem spriteStep_mem_httpGet (s2 site : Site) (lo up url fn u2 : String)
    (r : GetResult) (c w : Option String) (fs : FS) :
    Event.httpGet s2 u2 ∈ (spriteStep site lo up url fn r c w fs).1 ↔
      (s2 = site ∧ u2 = url ∧ url ≠ "") := by
  by_cases hu : url = ""
  · subst hu; simp [spriteStep]
  · rcases hd : downloadSprite r with e | d <;>
      rcases c with _ | e1 <;> rcases w with _ | e2 <;>
      simp [spriteStep, saveSprite, hu, hd]

/-- The file creations occurring in a sprite block: exactly one at the
block's file name, and only when the URL is non-empty and the download
succeeded. -/
theorem spriteStep_mem_fileCreate (site : Site) (lo up url fn f : String)
    (r : GetResult) (c w : Option String) (fs : FS) :
    Event.fileCreate f ∈ (spriteStep site lo up url fn r c w fs).1 ↔
      (f = fn ∧ url ≠ "" ∧ ∃ d, downloadSprite r = Except.ok d) := by
  by_cases hu : url = ""
  · subst hu; simp [spriteStep]
  · rcases hd : downloadSprite r with e | d0 <;>
      rcases c with _ | e1 <;> rcases w with _ | e2 <;>
      simp [spriteStep, saveSprite, hu, hd]

/-- The file writes occurring in a sprite block: exactly one, at the block's
file name with the downloaded bytes, and only when the URL is non-empty,
the download succeeded, and both file calls succeed. -/
theorem spriteStep_mem_fileWrite (site : Site) (lo up url fn f : String)
    (r : GetResult) (c w : Option String) (fs : FS) (d : Bytes) :
    Event.fileWrite f d ∈ (spriteStep site lo up url fn r c w fs).1 ↔
      (f = fn ∧ url ≠ "" ∧ downloadSprite r = Except.ok d ∧ c = none ∧ w = none) := by
  by_cases hu : url = ""
  · subst hu; simp [spriteStep]
  · rcases hd : downloadSprite r with e | d0 <;>
      rcases c with _ | e1 <;> rcases w with _ | e2 <;>
      simp [spriteStep, saveSprite, hu, hd] <;> aesop

/-- No send on `resultChan` occurs in a sprite block. -/
theorem spriteStep_no_sendResult (site : Site) (lo up url fn : String)
    (r : GetResult) (c w : Option String) (fs : FS) (b : Bytes) :
    Event.sendResult b ∉ (spriteStep site lo up url fn r c w fs).1 := by
  by_cases hu : url = ""
  · subst hu; simp [spriteStep]
  · rcases hd : downloadSprite r with e | d0 <;>
      rcases c with _ | e1 <;> rcases w with _ | e2 <;>
      simp [spriteStep, saveSprite, hu, hd]

theorem spriteStep_no_sendError (site : Site) (lo up url fn : String)
    (r : GetResult) (c w : Option String) (fs : FS) (m : String) :
    Event.sendError m ∉ (spriteStep site lo up url fn r c w fs).1 := by
  by_cases hu : url = ""
  · subst hu; simp [spriteStep]
  · rcases hd : downloadSprite r with e | d0 <;>
      rcases c with _ | e1 <;> rcases w with _ | e2 <;>
      simp [spriteStep, saveSprite, hu, hd]

theorem countGets_spriteStep (s2 site : Site) (lo up url fn : String)
    (r : GetResult) (c w : Option String) (fs : FS) :
    countGets s2 (spriteStep site lo up url fn r c w fs).1 =
      if s2 = site ∧ url ≠ "" then 1 else 0 := by
  by_cases hu : url = ""
  · subst hu; simp [spriteStep, countGets]
  · by_cases hss : site = s2
    · subst hss
      rcases hd : downloadSprite r with e | d0 <;>
        rcases c with _ | e1 <;> rcases w with _ | e2 <;>
        simp [spriteStep, saveSprite, countGets, hu, hd, List.filter, isGetAt, isSignal]
    · have hf : (site == s2) = false := by
        simp [beq_eq_false_iff_ne, hss]
      rcases hd : downloadSprite r with e | d0 <;>
        rcases c with _ | e1 <;> rcases w with _ | e2 <;>
        simp [spriteStep, saveSprite, countGets, hu, hd, List.filter, isGetAt, isSignal, hf,
          Ne.symm hss]

theorem countSignals_spriteStep (site : Site) (lo up url fn : String)
    (r : GetResult) (c w : Option String) (fs : FS) :
    countSignals (spriteStep site lo up url fn r c w fs).1 = 0 := by
  by_cases hu : url = ""
  · subst hu; simp [spriteStep, countSignals]
  · rcases hd : downloadSprite r with e | d0 <;>
      rcases c with _ | e1 <;> rcases w with _ | e2 <;>
      simp [spriteStep, saveSprite, countSignals, hu, hd, List.filter, isSignal]

theorem countGets_append (s : Site) (t1 t2 : List Event) :
    countGets s (t1 ++ t2) = countGets s t1 + countGets s t2 := by
  simp [countGets, List.filter_append]

theorem countSignals_append (t1 t2 : List Event) :
    countSignals (t1 ++ t2) = countSignals t1 + countSignals t2 := by
  simp [countSignals, List.filter_append]

theorem countGets_fieldPrints (s : Site) (p : Pokemon) :
    countGets s ((fieldPrints p).map Event.print) = 0 := by
  simp [countGets, fieldPrints, List.filter, isGetAt]

theorem countSignals_fieldPrints (p : Pokemon) :
    countSignals ((fieldPrints p).map Event.print) = 0 := by
  simp [countSignals, fieldPrints, List.filter, isSignal]

theorem countGets_fetchData (s : Site) (url : String) (r : GetResult) :
    countGets s (fetchData url r) = if Site.mainRes = s then 1 else 0 := by
  rw [fetchData_eq]
  by_cases hs : Site.mainRes = s
  · cases fetchOutcome r <;>
      simp [countGets, List.filter, isGetAt, signalEvent, isSignal, hs]
  · have hf : (Site.mainRes == s) = false := by
      simp [hs]
    cases fetchOutcome r <;>
      simp [countGets, List.filter, isGetAt, signalEvent, isSignal, hf, hs]

theorem countSignals_fetchData (url : String) (r : GetResult) :
    countSignals (fetchData url r) = 1 := by
  rw [fetchData_eq]
  cases fetchOutcome r <;>
    simp [countSignals, List.filter, isSignal, signalEvent, isGetAt]

theorem mainRun_failure (env : Env) (fs : FS) (m : String)
    (hb : fetchOutcome env.mainGet = FetchOutcome.failure m) :
    mainRun env fs = ([Event.httpGet Site.mainRes mainUrl, Event.sendError m,
      Event.print ("Error: " ++ m)], fs) := by
  simp [mainRun, fetchData_eq, hb, signalEvent]

theorem mainRun_parseErr (env : Env) (fs : FS) (body : Bytes) (e : String)
    (hb : fetchOutcome env.mainGet = FetchOutcome.success body)
    (hp : parseJSON env.parse body = Except.error e) :
    mainRun env fs = ([Event.httpGet Site.mainRes mainUrl, Event.sendResult body,
      Event.print ("Error: " ++ e)], fs) := by
  simp [mainRun, fetchData_eq, hb, hp, signalEvent]

theorem mainRun_ok (env : Env) (fs : FS) (body : Bytes) (p : Pokemon)
    (hb : fetchOutcome env.mainGet = FetchOutcome.success body)
    (hp : parseJSON env.parse body = Except.ok p) :
    mainRun env fs =
      ([Event.httpGet Site.mainRes mainUrl, Event.sendResult body] ++
        (fieldPrints p).map Event.print ++ (frontStepOf env p fs).1 ++
        (backStepOf env p (frontStepOf env p fs).2).1,
       (backStepOf env p (frontStepOf env p fs).2).2) := by
  simp [mainRun, fetchData_eq, hb, hp, signalEvent, frontStepOf, backStepOf]

theorem frontFilename_eq (n : String) : frontFilename n = n ++ "_front.png" := by
  simp [frontFilename, filepathJoin]

theorem backFilename_eq (n : String) : backFilename n = n ++ "_back.png" := by
  simp [backFilename, filepathJoin]

theorem frontFilename_ne_backFilename (n : String) :
    frontFilename n ≠ backFilename n := by
  rw [frontFilename_eq, backFilename_eq]
  intro h
  have h2 := congrArg String.data h
  simp only [String.data_append] at h2
  have h3 := List.append_cancel_left h2
  exact absurd h3 (by decide)

theorem pos_lt_of_append {α : Type} (A B : List α) (P Q : α → Prop)
    (hA : ∀ e, e ∈ A → ¬ Q e) (hB : ∀ e, e ∈ B → ¬ P e)
    (i j : Nat) (hi : i < (A ++ B).length) (hj : j < (A ++ B).length)
    (hP : P ((A ++ B).get ⟨i, hi⟩)) (hQ : Q ((A ++ B).get ⟨j, hj⟩)) : i < j := by
  have hiA : i < A.length := by
    by_contra hge
    push_neg at hge
    have hmem : (A ++ B).get ⟨i, hi⟩ ∈ B := by
      simp only [List.get_eq_getElem]
      rw [List.getElem_append_right hge]
      exact List.getElem_mem _
    exact hB _ hmem hP
  have hjA : A.length ≤ j := by
    by_contra hlt
    push_neg at hlt
    have hmem : (A ++ B).get ⟨j, hj⟩ ∈ A := by
      simp only [List.get_eq_getElem]
      rw [List.getElem_append_left hlt]
      exact List.getElem_mem _
    exact hA _ hmem hQ
  omega

theorem spriteStep_event_shape (site : Site) (lo up url fn : String)
    (r : GetResult) (c w : Option String) (fs : FS) (e : Event)
    (he : e ∈ (spriteStep site lo up url fn r c w fs).1) :
    e = Event.httpGet site url ∨ e = Event.fileCreate fn ∨
      (∃ d, e = Event.fileWrite fn d) ∨ (∃ s, e = Event.print s) := by
  by_cases hu : url = ""
  · subst hu; simp [spriteStep] at he
  · rcases hd : downloadSprite r with e0 | d0 <;>
      rcases c with _ | e1 <;> rcases w with _ | e2 <;>
      simp [spriteStep, saveSprite, hu, hd] at he <;> aesop

/-- C1: `fetchData` signals exactly one outcome per call: its trace contains
exactly one channel send; the full response body is sent on `resultChan` iff
the GET succeeded with status 200 and the body read succeeded; in every
other case one descriptive error, naming the failure, is sent on
`errorChan` and nothing is sent on `resultChan`. -/
theorem fetchData_signals_exactly_one_outcome (url : String) (r : GetResult) :
    countSignals (fetchData url r) = 1 ∧
    (∀ b : Bytes, Event.sendResult b ∈ fetchData url r ↔
      r = GetResult.resp 200 (Except.ok b)) ∧
    ((∀ b : Bytes, r ≠ GetResult.resp 200 (Except.ok b)) →
      ∃ m, Event.sendError m ∈ fetchData url r ∧
        (∀ b, Event.sendResult b ∉ fetchData url r) ∧
        ((∃ e, r = GetResult.netErr e ∧ m = "HTTP request error: " ++ e) ∨
         (∃ st rb, r = GetResult.resp st rb ∧ st ≠ 200 ∧
            m = "unexpected status code: " ++ toString st) ∨
         (∃ e, r = GetResult.resp 200 (Except.error e) ∧
            m = "error reading response body: " ++ e))) := by
  refine ⟨countSignals_fetchData url r, ?_, ?_⟩
  · intro b
    rw [fetchData_eq]
    cases r with
    | netErr e => simp [fetchOutcome, signalEvent]
    | resp st rb =>
        by_cases hs : st = 200
        · subst hs
          cases rb with
          | error e => simp [fetchOutcome, signalEvent]
          | ok b2 => simp [fetchOutcome, signalEvent, eq_comm]
        · simp [fetchOutcome, signalEvent, hs]
  · intro hfail
    rw [fetchData_eq]
    cases r with
    | netErr e =>
        refine ⟨"HTTP request error: " ++ e, ?_, ?_, Or.inl ⟨e, rfl, rfl⟩⟩
        · simp [fetchOutcome, signalEvent]
        · intro b; simp [fetchOutcome, signalEvent]
    | resp st rb =>
        by_cases hs : st = 200
        · subst hs
          cases rb with
          | error e =>
              refine ⟨"error reading response body: " ++ e, ?_, ?_,
                Or.inr (Or.inr ⟨e, rfl, rfl⟩)⟩
              · simp [fetchOutcome, signalEvent]
              · intro b; simp [fetchOutcome, signalEvent]
          | ok b => exact absurd rfl (hfail b)
        · refine ⟨"unexpected status code: " ++ toString st, ?_, ?_,
            Or.inr (Or.inl ⟨st, rb, rfl, hs, rfl⟩)⟩
          · simp [fetchOutcome, signalEvent, hs]
          · intro b; simp [fetchOutcome, signalEvent, hs]

/-- Witness for C1 at a concrete transport failure. -/
theorem fetchData_signals_exactly_one_outcome_witness :
    countSignals (fetchData "u" (GetResult.netErr "boom")) = 1 :=
  (fetchData_signals_exactly_one_outcome "u" (GetResult.netErr "boom")).1

/-- C2: when the fetched body fails to decode, `main` prints exactly the
one error line and terminates: no field is printed, no sprite GET is
issued, no file is created or written, and the file system is unchanged. -/
theorem mainRun_parse_error_terminates (env : Env) (fs : FS) (body : Bytes) (e : String)
    (hb : fetchOutcome env.mainGet = FetchOutcome.success body)
    (hp : parseJSON env.parse body = Except.error e) :
    mainRun env fs = ([Event.httpGet Site.mainRes mainUrl, Event.sendResult body,
      Event.print ("Error: " ++ e)], fs) ∧
    (∀ s, Event.print s ∈ (mainRun env fs).1 → s = "Error: " ++ e) ∧
    (∀ u, Event.httpGet Site.front u ∉ (mainRun env fs).1) ∧
    (∀ u, Event.httpGet Site.back u ∉ (mainRun env fs).1) ∧
    (∀ f, Event.fileCreate f ∉ (mainRun env fs).1) ∧
    (∀ f d, Event.fileWrite f d ∉ (mainRun env fs).1) ∧
    (mainRun env fs).2 = fs := by
  have h := mainRun_parseErr env fs body e hb hp
  refine ⟨h, ?_, ?_, ?_, ?_, ?_, ?_⟩ <;> rw [h] <;> simp

/-- Witness for C2: a 200 response whose body is malformed JSON. -/
theorem mainRun_parse_error_terminates_witness :
    mainRun envParseErr fsEmpty =
      ([Event.httpGet Site.mainRes mainUrl, Event.sendResult [1],
        Event.print ("Error: " ++ "error parsing JSON: unexpected end of JSON input")],
       fsEmpty) :=
  (mainRun_parse_error_terminates envParseErr fsEmpty [1]
    "error parsing JSON: unexpected end of JSON input" rfl rfl).1

/-- C9: `saveSprite` creates or truncates its target: when it returns nil
the file afterwards contains exactly the given data whatever it held
before, and no other file changes; when file creation fails it returns the
create error, changes no file, and performs no write. -/
theorem saveSprite_create_or_truncate (data : Bytes) (fn : String)
    (cErr wErr : Option String) (fs : FS) :
    ((saveSprite data fn cErr wErr fs).result = none →
      (saveSprite data fn cErr wErr fs).fs fn = some data ∧
      (∀ g, g ≠ fn → (saveSprite data fn cErr wErr fs).fs g = fs g)) ∧
    (∀ e, cErr = some e →
      (saveSprite data fn cErr wErr fs).result = some ("error creating file: " ++ e) ∧
      (saveSprite data fn cErr wErr fs).fs = fs ∧
      (∀ f d, Event.fileWrite f d ∉ (saveSprite data fn cErr wErr fs).events)) := by
  constructor
  · rcases cErr with _ | e0
    · rcases wErr with _ | e1
      · intro _
        refine ⟨by simp [saveSprite, fsUpdate], ?_⟩
        intro g hg
        simp [saveSprite, fsUpdate, hg]
      · intro hres
        simp [saveSprite] at hres
    · intro hres
      simp [saveSprite] at hres
  · intro e he
    subst he
    refine ⟨rfl, rfl, ?_⟩
    intro f d
    simp [saveSprite]

/-- Witness for C9: a successful save over an empty file system. -/
theorem saveSprite_create_or_truncate_witness :
    (saveSprite [1, 2] "x.png" none none fsEmpty).fs "x.png" = some [1, 2] :=
  ((saveSprite_create_or_truncate [1, 2] "x.png" none none fsEmpty).1 rfl).1

/-- All keys of an object that match no schema tag leave the accumulator
unchanged. -/
theorem decodePokemonObj_unmatched (cur : Pokemon) (kvs : List (String × Json))
    (hk : ∀ kv ∈ kvs, ∀ tag ∈ pokeTags, keyMatches kv.1 tag = false) :
    decodePokemonObj cur kvs = Except.ok cur := by
  induction kvs with
  | nil => rfl
  | cons kv rest ih =>
      rcases kv with ⟨k, v⟩
      have h1 := hk (k, v) (List.mem_cons_self _ _)
      have hname : keyMatches k "name" = false := h1 "name" (by simp [pokeTags])
      have hbe : keyMatches k "base_experience" = false :=
        h1 "base_experience" (by simp [pokeTags])
      have hh : keyMatches k "height" = false := h1 "height" (by simp [pokeTags])
      have hid : keyMatches k "id" = false := h1 "id" (by simp [pokeTags])
      have hsp : keyMatches k "sprites" = false := h1 "sprites" (by simp [pokeTags])
      have hst : keyMatches k "stats" = false := h1 "stats" (by simp [pokeTags])
      simp only [decodePokemonObj, hname, hbe, hh, hid, hsp, hst,
        Bool.false_eq_true, if_false]
      exact ih (fun kv2 hkv2 => hk kv2 (List.mem_cons_of_mem _ hkv2))

/-- C10 counterexample: `{"NAME": 5}` is a well-formed JSON object in which
every expected key is absent, yet `parseJSON` returns an error rather than
the zero `Pokemon`: `"NAME"` is matched case-insensitively to the tag
`name` and `5` cannot be decoded into a `string` field. -/
theorem parseJSON_no_schema_cex :
    (∀ tag ∈ pokeTags, "NAME" ≠ tag) ∧
    parseJSON parseUpperName [] =
      Except.error "error parsing JSON: cannot unmarshal value into field of type string" ∧
    parseJSON parseUpperName [] ≠ Except.ok zeroPokemon := by
  refine ⟨by decide, rfl, ?_⟩
  intro h
  exact Except.noConfusion
    ((rfl : parseJSON parseUpperName [] =
        Except.error "error parsing JSON: cannot unmarshal value into field of type string").symm.trans h)

/-- C10 (amended): `parseJSON` enforces no schema: it succeeds on any
well-formed JSON object none of whose keys matches an expected key (the
matching, like Go's, is case-insensitive), returning the `Pokemon` with all
fields zero — empty name, 0 base experience, height and id, empty sprite
URLs, empty stat list — so downstream steps run on those zero values. -/
theorem parseJSON_zero_on_unmatched_keys (p : Bytes → Except String Json)
    (body : Bytes) (kvs : List (String × Json))
    (hp : p body = Except.ok (Json.obj kvs))
    (hk : ∀ kv ∈ kvs, ∀ tag ∈ pokeTags, keyMatches kv.1 tag = false) :
    parseJSON p body = Except.ok zeroPokemon ∧
    zeroPokemon.name = "" ∧ zeroPokemon.baseExp = 0 ∧ zeroPokemon.height = 0 ∧
    zeroPokemon.id = 0 ∧ zeroPokemon.sprites.frontDefault = "" ∧
    zeroPokemon.sprites.backDefault = "" ∧ zeroPokemon.statInfo = [] := by
  have hdec : decodePokemonObj zeroPokemon kvs = Except.ok zeroPokemon :=
    decodePokemonObj_unmatched zeroPokemon kvs hk
  refine ⟨?_, rfl, rfl, rfl, rfl, rfl, rfl, rfl⟩
  simp [parseJSON, hp, unmarshalPokemon, hdec]

/-- Witness for C10's amended claim: an object with one junk key decodes to
the zero `Pokemon`. -/
theorem parseJSON_zero_on_unmatched_keys_witness :
    parseJSON parseJunkKey [] = Except.ok zeroPokemon :=
  (parseJSON_zero_on_unmatched_keys parseJunkKey [] [("foo", Json.num 1)]
    rfl (by decide)).1

/-- C3 counterexample: a decoded `Pokemon` with a non-empty front URL whose
download fails: the front GET is attempted but no file creation or write
is, so "the GET and its corresponding file write are attempted iff the URL
field is non-empty" fails in the write direction. -/
theorem mainRun_sprite_attempt_iff_cex :
    parseJSON envFrontDown.parse [1] = Except.ok pFrontDown ∧
    pFrontDown.sprites.frontDefault ≠ "" ∧
    Event.httpGet Site.front "u" ∈ (mainRun envFrontDown fsEmpty).1 ∧
    (∀ f, Event.fileCreate f ∉ (mainRun envFrontDown fsEmpty).1) ∧
    (∀ f d, Event.fileWrite f d ∉ (mainRun envFrontDown fsEmpty).1) ∧
    ¬ ((Event.httpGet Site.front "u" ∈ (mainRun envFrontDown fsEmpty).1 ∧
        ∃ f, Event.fileCreate f ∈ (mainRun envFrontDown fsEmpty).1) ↔
       pFrontDown.sprites.frontDefault ≠ "") := by
  have ht : (mainRun envFrontDown fsEmpty).1 = traceFrontDown := rfl
  refine ⟨rfl, by decide, ?_, ?_, ?_, ?_⟩
  · rw [ht]; simp [traceFrontDown]
  · intro f; rw [ht]; simp [traceFrontDown]
  · intro f d; rw [ht]; simp [traceFrontDown]
  · intro h
    obtain ⟨-, f, hf⟩ := h.mpr (by decide)
    rw [ht] at hf
    simp [traceFrontDown] at hf

/-- C3 (amended): for every successfully decoded `Pokemon`, the front
(resp. back) sprite GET is attempted iff its URL field is non-empty; the
corresponding file write is attempted (the file created, then written) iff
additionally the download succeeds — and it lands iff the file calls also
succeed; when the URL field is empty, that download and that file write are
skipped entirely. -/
theorem mainRun_sprite_guard (env : Env) (fs : FS) (body : Bytes) (p : Pokemon)
    (hb : fetchOutcome env.mainGet = FetchOutcome.success body)
    (hp : parseJSON env.parse body = Except.ok p) :
    ((∃ u, Event.httpGet Site.front u ∈ (mainRun env fs).1) ↔
      p.sprites.frontDefault ≠ "") ∧
    (Event.fileCreate (frontFilename p.name) ∈ (mainRun env fs).1 ↔
      (p.sprites.frontDefault ≠ "" ∧ ∃ d, downloadSprite env.frontGet = Except.ok d)) ∧
    (∀ d, Event.fileWrite (frontFilename p.name) d ∈ (mainRun env fs).1 ↔
      (p.sprites.frontDefault ≠ "" ∧ downloadSprite env.frontGet = Except.ok d ∧
       env.frontCreate = none ∧ env.frontWrite = none)) ∧
    ((∃ u, Event.httpGet Site.back u ∈ (mainRun env fs).1) ↔
      p.sprites.backDefault ≠ "") ∧
    (Event.fileCreate (backFilename p.name) ∈ (mainRun env fs).1 ↔
      (p.sprites.backDefault ≠ "" ∧ ∃ d, downloadSprite env.backGet = Except.ok d)) ∧
    (∀ d, Event.fileWrite (backFilename p.name) d ∈ (mainRun env fs).1 ↔
      (p.sprites.backDefault ≠ "" ∧ downloadSprite env.backGet = Except.ok d ∧
       env.backCreate = none ∧ env.backWrite = none)) := by
  have hm := mainRun_ok env fs body p hb hp
  have hfb := frontFilename_ne_backFilename p.name
  rw [hm]
  simp [List.mem_append, frontStepOf, backStepOf, spriteStep_mem_httpGet,
    spriteStep_mem_fileCreate, spriteStep_mem_fileWrite, hfb, Ne.symm hfb]

/-- Witness for C3's amended claim in the all-success environment. -/
theorem mainRun_sprite_guard_witness :
    (∃ u, Event.httpGet Site.front u ∈ (mainRun envAllOk fsEmpty).1) ↔
      pAllOk.sprites.frontDefault ≠ "" :=
  (mainRun_sprite_guard envAllOk fsEmpty [1, 2] pAllOk rfl rfl).1

/-- C4: every file created or written during a run is named after the
decoded resource: its name is `n_front.png` or `n_back.png` for the decoded
name `n`, these being `filepath.Join(".", ...)` of the two sprite file
names, and files exist only in runs whose fetch and decode succeeded. -/
theorem mainRun_files_named_after_resource (env : Env) (fs : FS) (f : String)
    (hf : Event.fileCreate f ∈ (mainRun env fs).1 ∨
      ∃ d, Event.fileWrite f d ∈ (mainRun env fs).1) :
    ∃ body p, fetchOutcome env.mainGet = FetchOutcome.success body ∧
      parseJSON env.parse body = Except.ok p ∧
      (f = frontFilename p.name ∨ f = backFilename p.name) ∧
      frontFilename p.name = p.name ++ "_front.png" ∧
      backFilename p.name = p.name ++ "_back.png" := by
  cases ho : fetchOutcome env.mainGet with
  | failure m =>
      rw [mainRun_failure env fs m ho] at hf
      simp at hf
  | success body =>
      cases hp : parseJSON env.parse body with
      | error e =>
          rw [mainRun_parseErr env fs body e ho hp] at hf
          simp at hf
      | ok p =>
          refine ⟨body, p, rfl, hp, ?_, frontFilename_eq _, backFilename_eq _⟩
          rw [mainRun_ok env fs body p ho hp] at hf
          rcases hf with hc | ⟨d, hw⟩
          · simp [List.mem_append, frontStepOf, backStepOf,
              spriteStep_mem_fileCreate] at hc
            tauto
          · simp [List.mem_append, frontStepOf, backStepOf,
              spriteStep_mem_fileWrite] at hw
            tauto

/-- Witness for C4: in the all-success run the front file is created. -/
theorem mainRun_files_named_after_resource_witness :
    ∃ body p, fetchOutcome envAllOk.mainGet = FetchOutcome.success body ∧
      parseJSON envAllOk.parse body = Except.ok p ∧
      ("bulbasaur_front.png" = frontFilename p.name ∨
        "bulbasaur_front.png" = backFilename p.name) ∧
      frontFilename p.name = p.name ++ "_front.png" ∧
      backFilename p.name = p.name ++ "_back.png" :=
  mainRun_files_named_after_resource envAllOk fsEmpty "bulbasaur_front.png"
    (Or.inl (by
      have ht : (mainRun envAllOk fsEmpty).1 = traceAllOk := rfl
      rw [ht]
      simp [traceAllOk]))

/-- GETs issued by the two fixed head events of a successful fetch. -/
theorem countGets_head2 (s : Site) (b : Bytes) :
    countGets s [Event.httpGet Site.mainRes mainUrl, Event.sendResult b] =
      if Site.mainRes = s then 1 else 0 := by
  have hmf : (Site.mainRes == Site.front) = false := by decide
  have hmb : (Site.mainRes == Site.back) = false := by decide
  cases s <;> simp [countGets, List.filter, isGetAt, hmf, hmb]

/-- C5: a failing sprite step terminates only that step: whichever way the
front sprite step fails (download or save), its error line is printed and
the back step is still attempted when its URL is non-empty; and no call
site issues its GET more than once in any run. -/
theorem mainRun_front_failure_isolated (env : Env) (fs : FS) :
    countGets Site.mainRes (mainRun env fs).1 = 1 ∧
    countGets Site.front (mainRun env fs).1 ≤ 1 ∧
    countGets Site.back (mainRun env fs).1 ≤ 1 ∧
    (∀ body p e, fetchOutcome env.mainGet = FetchOutcome.success body →
      parseJSON env.parse body = Except.ok p →
      downloadSprite env.frontGet = Except.error e →
      p.sprites.backDefault ≠ "" →
      (p.sprites.frontDefault ≠ "" →
        Event.print ("Error downloading front sprite: " ++ e) ∈ (mainRun env fs).1) ∧
      Event.httpGet Site.back p.sprites.backDefault ∈ (mainRun env fs).1) ∧
    (∀ body p d e, fetchOutcome env.mainGet = FetchOutcome.success body →
      parseJSON env.parse body = Except.ok p →
      downloadSprite env.frontGet = Except.ok d →
      (saveSprite d (frontFilename p.name) env.frontCreate env.frontWrite fs).result =
        some e →
      p.sprites.backDefault ≠ "" →
      (p.sprites.frontDefault ≠ "" →
        Event.print ("Error saving front sprite: " ++ e) ∈ (mainRun env fs).1) ∧
      Event.httpGet Site.back p.sprites.backDefault ∈ (mainRun env fs).1) := by
  have b1 : (Site.mainRes == Site.front) = false := by decide
  have b2 : (Site.mainRes == Site.back) = false := by decide
  have hcounts : countGets Site.mainRes (mainRun env fs).1 = 1 ∧
      countGets Site.front (mainRun env fs).1 ≤ 1 ∧
      countGets Site.back (mainRun env fs).1 ≤ 1 := by
    cases ho : fetchOutcome env.mainGet with
    | failure m =>
        rw [mainRun_failure env fs m ho]
        refine ⟨?_, ?_, ?_⟩ <;> simp [countGets, List.filter, isGetAt, b1, b2]
    | success body =>
        cases hp : parseJSON env.parse body with
        | error e =>
            rw [mainRun_parseErr env fs body e ho hp]
            refine ⟨?_, ?_, ?_⟩ <;> simp [countGets, List.filter, isGetAt, b1, b2]
        | ok p =>
            rw [mainRun_ok env fs body p ho hp]
            refine ⟨?_, ?_, ?_⟩ <;>
              (simp only [countGets_append, countGets_spriteStep, countGets_fieldPrints,
                frontStepOf, backStepOf, countGets_head2];
               simp;
               try (split_ifs <;> simp))
  refine ⟨hcounts.1, hcounts.2.1, hcounts.2.2, ?_, ?_⟩
  · intro body p e hb hp hd hback
    have hm := mainRun_ok env fs body p hb hp
    constructor
    · intro hfront
      have hfs : (frontStepOf env p fs).1 =
          [Event.httpGet Site.front p.sprites.frontDefault,
           Event.print ("Error downloading front sprite: " ++ e)] := by
        rw [frontStepOf, spriteStep_dlErr Site.front "front" "Front"
          p.sprites.frontDefault (frontFilename p.name) env.frontGet
          env.frontCreate env.frontWrite fs e hfront hd]
        rfl
      rw [hm]
      simp [List.mem_append, hfs]
    · rw [hm]
      simp [List.mem_append, backStepOf, spriteStep_mem_httpGet, hback]
  · intro body p d e hb hp hd hsv hback
    have hm := mainRun_ok env fs body p hb hp
    constructor
    · intro hfront
      have hfs : (frontStepOf env p fs).1 =
          Event.httpGet Site.front p.sprites.frontDefault ::
            (saveSprite d (frontFilename p.name) env.frontCreate env.frontWrite fs).events ++
            [Event.print ("Error saving front sprite: " ++ e)] := by
        rw [frontStepOf, spriteStep_saveErr Site.front "front" "Front"
          p.sprites.frontDefault (frontFilename p.name) env.frontGet
          env.frontCreate env.frontWrite fs d e hfront hd hsv]
        rfl
      rw [hm]
      simp [List.mem_append, hfs]
    · rw [hm]
      simp [List.mem_append, backStepOf, spriteStep_mem_httpGet, hback]

/-- Witness for C5: front download fails, back URL non-empty, back GET
still issued. -/
theorem mainRun_front_failure_isolated_witness :
    Event.httpGet Site.back pFrontDownBackOk.sprites.backDefault ∈
      (mainRun envFrontDownBackOk fsEmpty).1 :=
  ((mainRun_front_failure_isolated envFrontDownBackOk fsEmpty).2.2.2.1 [1]
    pFrontDownBackOk "error downloading sprite: timeout" rfl rfl rfl (by decide)).2

/-- An element read by index is a member of the list. -/
theorem mem_of_getElem_some {α : Type} (l : List α) (n : Nat) (a : α)
    (h : l[n]? = some a) : a ∈ l := by
  have hn : n < l.length := by
    by_contra hge
    push_neg at hge
    rw [List.getElem?_eq_none hge] at h
    cases h
  rw [List.getElem?_eq_getElem hn] at h
  cases h
  exact List.getElem_mem _

theorem length_le_of_getElem_append {α : Type} (A B : List α) (P : α → Prop)
    (k : Nat) (a : α) (hA : ∀ x ∈ A, ¬ P x) (hget : (A ++ B)[k]? = some a)
    (hP : P a) : A.length ≤ k := by
  by_contra hlt
  push_neg at hlt
  rw [List.getElem?_append_left hlt] at hget
  exact hA a (mem_of_getElem_some A k a hget) hP

theorem lt_of_getElem_append {α : Type} (A B : List α) (P Q : α → Prop)
    (i j : Nat) (a b : α) (hA : ∀ x ∈ A, ¬ Q x) (hB : ∀ x ∈ B, ¬ P x)
    (hi : (A ++ B)[i]? = some a) (hPa : P a)
    (hj : (A ++ B)[j]? = some b) (hQb : Q b) : i < j := by
  have hjA : A.length ≤ j := length_le_of_getElem_append A B Q j b hA hj hQb
  have hiA : i < A.length := by
    by_contra hge
    push_neg at hge
    rw [List.getElem?_append_right hge] at hi
    exact hB a (mem_of_getElem_some B (i - A.length) a hi) hPa
  omega

/-- C6: each successful run has the fixed order: the trace's first 8 events
are the main GET, the received body, then the six field prints; every
sprite-section effect (sprite GET, file create, file write) comes at index
8 or later; and the front sprite's file write precedes the back sprite's
GET. -/
theorem mainRun_fixed_order (env : Env) (fs : FS) (body : Bytes) (p : Pokemon)
    (hb : fetchOutcome env.mainGet = FetchOutcome.success body)
    (hp : parseJSON env.parse body = Except.ok p) :
    (mainRun env fs).1.take 8 =
      [Event.httpGet Site.mainRes mainUrl, Event.sendResult body] ++
        (fieldPrints p).map Event.print ∧
    (∀ (k : Nat) (e : Event), (mainRun env fs).1[k]? = some e →
      isSpriteEvent e = true → 8 ≤ k) ∧
    (∀ (i j : Nat) (d : Bytes) (u : String),
      (mainRun env fs).1[i]? = some (Event.fileWrite (frontFilename p.name) d) →
      (mainRun env fs).1[j]? = some (Event.httpGet Site.back u) → i < j) := by
  have hm := mainRun_ok env fs body p hb hp
  have hm1 : (mainRun env fs).1 =
      [Event.httpGet Site.mainRes mainUrl, Event.sendResult body] ++
        (fieldPrints p).map Event.print ++ (frontStepOf env p fs).1 ++
        (backStepOf env p (frontStepOf env p fs).2).1 := by
    rw [hm]
  have hA8 : ([Event.httpGet Site.mainRes mainUrl, Event.sendResult body] ++
      (fieldPrints p).map Event.print).length = 8 := by
    simp [fieldPrints]
  have hAnospr : ∀ x ∈ [Event.httpGet Site.mainRes mainUrl, Event.sendResult body] ++
      (fieldPrints p).map Event.print, ¬ (isSpriteEvent x = true) := by
    intro x hx
    simp only [List.mem_append, List.mem_cons, List.mem_singleton, List.mem_map,
      List.not_mem_nil, or_false] at hx
    rcases hx with (rfl | rfl) | ⟨s, -, rfl⟩ <;> simp [isSpriteEvent]
  refine ⟨?_, ?_, ?_⟩
  · have htr : (mainRun env fs).1 =
        ([Event.httpGet Site.mainRes mainUrl, Event.sendResult body] ++
          (fieldPrints p).map Event.print) ++
        ((frontStepOf env p fs).1 ++ (backStepOf env p (frontStepOf env p fs).2).1) := by
      rw [hm1]
      simp [List.append_assoc]
    rw [htr, ← hA8, List.take_left]
  · intro k e hget hsprite
    have htr : (mainRun env fs).1 =
        ([Event.httpGet Site.mainRes mainUrl, Event.sendResult body] ++
          (fieldPrints p).map Event.print) ++
        ((frontStepOf env p fs).1 ++ (backStepOf env p (frontStepOf env p fs).2).1) := by
      rw [hm1]
      simp [List.append_assoc]
    rw [htr] at hget
    have hle := length_le_of_getElem_append _ _ (fun x => isSpriteEvent x = true)
      k e hAnospr hget hsprite
    rw [hA8] at hle
    exact hle
  · intro i j d u hi hj
    have hfb := frontFilename_ne_backFilename p.name
    rw [hm1] at hi hj
    have hAnoback : ∀ x ∈ [Event.httpGet Site.mainRes mainUrl, Event.sendResult body] ++
        (fieldPrints p).map Event.print ++ (frontStepOf env p fs).1,
        ¬ (x = Event.httpGet Site.back u) := by
      intro x hx
      rcases List.mem_append.mp hx with hx1 | hx2
      · simp only [List.mem_append, List.mem_cons, List.mem_singleton, List.mem_map,
          List.not_mem_nil, or_false] at hx1
        rcases hx1 with (rfl | rfl) | ⟨s, -, rfl⟩ <;> simp
      · have hsh := spriteStep_event_shape Site.front "front" "Front"
          p.sprites.frontDefault (frontFilename p.name) env.frontGet
          env.frontCreate env.frontWrite fs x (by simpa [frontStepOf] using hx2)
        rcases hsh with rfl | rfl | ⟨d2, rfl⟩ | ⟨s2, rfl⟩ <;> simp
    have hBnofront : ∀ x ∈ (backStepOf env p (frontStepOf env p fs).2).1,
        ¬ (x = Event.fileWrite (frontFilename p.name) d) := by
      intro x hx
      have hsh := spriteStep_event_shape Site.back "back" "Back"
        p.sprites.backDefault (backFilename p.name) env.backGet
        env.backCreate env.backWrite (frontStepOf env p fs).2 x
        (by simpa [backStepOf] using hx)
      rcases hsh with rfl | rfl | ⟨d2, rfl⟩ | ⟨s2, rfl⟩ <;> simp [Ne.symm hfb]
    exact lt_of_getElem_append _ _
      (fun x => x = Event.fileWrite (frontFilename p.name) d)
      (fun x => x = Event.httpGet Site.back u) i j _ _
      hAnoback hBnofront hi rfl hj rfl

/-- Witness for C6: the fixed 8-event head in the all-success run. -/
theorem mainRun_fixed_order_witness :
    (mainRun envAllOk fsEmpty).1.take 8 =
      [Event.httpGet Site.mainRes mainUrl, Event.sendResult [1, 2]] ++
        (fieldPrints pAllOk).map Event.print :=
  (mainRun_fixed_order envAllOk fsEmpty [1, 2] pAllOk rfl rfl).1

/-- C7: on a successful fetch and decode the program prints exactly the six
selected lines — name, base experience, height, identifier, the sprite URL
pair, and the stat list — of the decoded `Pokemon`, right after receiving
the body and before anything else; and the decoder reads each field from
its corresponding JSON key of the fixed schema. -/
theorem mainRun_prints_selected_fields (env : Env) (fs : FS) (body : Bytes) (p : Pokemon)
    (hb : fetchOutcome env.mainGet = FetchOutcome.success body)
    (hp : parseJSON env.parse body = Except.ok p) :
    (mainRun env fs).1.take 8 =
      [Event.httpGet Site.mainRes mainUrl, Event.sendResult body,
       Event.print ("Pokemon Name: " ++ p.name),
       Event.print ("Pokemon BaseExp: " ++ toString p.baseExp),
       Event.print ("Pokemon Height: " ++ toString p.height),
       Event.print ("Pokemon Id: " ++ toString p.id),
       Event.print ("Pokemon Sprites: " ++
         ("\x7b" ++ p.sprites.frontDefault ++ " " ++ p.sprites.backDefault ++ "\x7d")),
       Event.print ("Pokemon Abilities: " ++ goShowStatList p.statInfo)] ∧
    (∀ s, unmarshalPokemon (Json.obj [("name", Json.str s)]) =
      Except.ok { zeroPokemon with name := s }) ∧
    (∀ n : Int, int32Min ≤ n → n ≤ int32Max →
      unmarshalPokemon (Json.obj [("base_experience", Json.num n)]) =
        Except.ok { zeroPokemon with baseExp := n }) ∧
    (∀ n : Int, int32Min ≤ n → n ≤ int32Max →
      unmarshalPokemon (Json.obj [("height", Json.num n)]) =
        Except.ok { zeroPokemon with height := n }) ∧
    (∀ n : Int, int32Min ≤ n → n ≤ int32Max →
      unmarshalPokemon (Json.obj [("id", Json.num n)]) =
        Except.ok { zeroPokemon with id := n }) ∧
    (∀ f b2, unmarshalPokemon (Json.obj [("sprites",
        Json.obj [("front_default", Json.str f), ("back_default", Json.str b2)])]) =
      Except.ok { zeroPokemon with
        sprites := { frontDefault := f, backDefault := b2 } }) ∧
    (∀ sn su, ∀ bs : Int, int32Min ≤ bs → bs ≤ int32Max →
      unmarshalPokemon (Json.obj [("stats", Json.arr [Json.obj
          [("stat", Json.obj [("name", Json.str sn), ("url", Json.str su)]),
           ("base_stat", Json.num bs)]])]) =
        Except.ok { zeroPokemon with
          statInfo := [{ stat := { name := sn, url := su }, baseStat := bs }] }) := by
  have hm := mainRun_ok env fs body p hb hp
  have htr : (mainRun env fs).1 =
      ([Event.httpGet Site.mainRes mainUrl, Event.sendResult body] ++
        (fieldPrints p).map Event.print) ++
      ((frontStepOf env p fs).1 ++ (backStepOf env p (frontStepOf env p fs).2).1) := by
    rw [hm]
    simp [List.append_assoc]
  have hA8 : ([Event.httpGet Site.mainRes mainUrl, Event.sendResult body] ++
      (fieldPrints p).map Event.print).length = 8 := by
    simp [fieldPrints]
  refine ⟨?_, ?_, ?_, ?_, ?_, ?_, ?_⟩
  · rw [htr, ← hA8, List.take_left]
    simp [fieldPrints, goShowSprites]
  · intro s
    rfl
  · intro n h1 h2
    have k1 : keyMatches "base_experience" "name" = false := rfl
    have k2 : keyMatches "base_experience" "base_experience" = true := rfl
    simp [unmarshalPokemon, decodePokemonObj, decodeInt32, k1, k2, h1, h2]
  · intro n h1 h2
    have k1 : keyMatches "height" "name" = false := rfl
    have k2 : keyMatches "height" "base_experience" = false := rfl
    have k3 : keyMatches "height" "height" = true := rfl
    simp [unmarshalPokemon, decodePokemonObj, decodeInt32, k1, k2, k3, h1, h2]
  · intro n h1 h2
    have k1 : keyMatches "id" "name" = false := rfl
    have k2 : keyMatches "id" "base_experience" = false := rfl
    have k3 : keyMatches "id" "height" = false := rfl
    have k4 : keyMatches "id" "id" = true := rfl
    simp [unmarshalPokemon, decodePokemonObj, decodeInt32, k1, k2, k3, k4, h1, h2]
  · intro f b2
    rfl
  · intro sn su bs h1 h2
    have k1 : keyMatches "stats" "name" = false := rfl
    have k2 : keyMatches "stats" "base_experience" = false := rfl
    have k3 : keyMatches "stats" "height" = false := rfl
    have k4 : keyMatches "stats" "id" = false := rfl
    have k5 : keyMatches "stats" "sprites" = false := rfl
    have k6 : keyMatches "stats" "stats" = true := rfl
    have k7 : keyMatches "stat" "stat" = true := rfl
    have k8 : keyMatches "base_stat" "stat" = false := rfl
    have k9 : keyMatches "base_stat" "base_stat" = true := rfl
    have k10 : keyMatches "name" "name" = true := rfl
    have k11 : keyMatches "url" "name" = false := rfl
    have k12 : keyMatches "url" "url" = true := rfl
    simp [unmarshalPokemon, decodePokemonObj, decodeStats, decodeStatInfoList,
      decodeStatInfo, decodeStatInfoObj, decodeStat, decodeStatObj, decodeString,
      decodeInt32, k1, k2, k3, k4, k5, k6, k7, k8, k9, k10, k11, k12, h1, h2, zeroStatInfo, zeroStat]

/-- Witness for C7 in the all-success run. -/
theorem mainRun_prints_selected_fields_witness :
    (mainRun envAllOk fsEmpty).1.take 8 =
      [Event.httpGet Site.mainRes mainUrl, Event.sendResult [1, 2],
       Event.print ("Pokemon Name: " ++ pAllOk.name),
       Event.print ("Pokemon BaseExp: " ++ toString pAllOk.baseExp),
       Event.print ("Pokemon Height: " ++ toString pAllOk.height),
       Event.print ("Pokemon Id: " ++ toString pAllOk.id),
       Event.print ("Pokemon Sprites: " ++
         ("\x7b" ++ pAllOk.sprites.frontDefault ++ " " ++ pAllOk.sprites.backDefault ++ "\x7d")),
       Event.print ("Pokemon Abilities: " ++ goShowStatList pAllOk.statInfo)] :=
  (mainRun_prints_selected_fields envAllOk fsEmpty [1, 2] pAllOk rfl rfl).1

/-- C8: exactly one fetch performs the main network call — every run issues
the main-request GET exactly once and carries exactly one channel send —
and the caller proceeds on whichever signal arrives: an error send is the
fetch failure and is echoed as the error line, a result send is the fetch
success and the run goes on to decode that body. -/
theorem mainRun_single_worker (env : Env) (fs : FS) :
    countGets Site.mainRes (mainRun env fs).1 = 1 ∧
    countSignals (mainRun env fs).1 = 1 ∧
    (∀ m, Event.sendError m ∈ (mainRun env fs).1 →
      fetchOutcome env.mainGet = FetchOutcome.failure m ∧
      Event.print ("Error: " ++ m) ∈ (mainRun env fs).1) ∧
    (∀ b, Event.sendResult b ∈ (mainRun env fs).1 →
      fetchOutcome env.mainGet = FetchOutcome.success b ∧
      ((∃ e, parseJSON env.parse b = Except.error e ∧
         Event.print ("Error: " ++ e) ∈ (mainRun env fs).1) ∨
       (∃ p, parseJSON env.parse b = Except.ok p ∧
         Event.print ("Pokemon Name: " ++ p.name) ∈ (mainRun env fs).1))) := by
  cases ho : fetchOutcome env.mainGet with
  | failure m0 =>
      have h := mainRun_failure env fs m0 ho
      refine ⟨?_, ?_, ?_, ?_⟩
      · rw [h]; exact countGets_head2 Site.mainRes [] ▸ rfl
      · rw [h]; rfl
      · intro m hmem
        rw [h] at hmem
        simp at hmem
        rcases hmem with rfl
        exact ⟨rfl, by rw [h]; simp⟩
      · intro b hmem
        rw [h] at hmem
        simp at hmem
  | success body =>
      cases hp : parseJSON env.parse body with
      | error e =>
          have h := mainRun_parseErr env fs body e ho hp
          refine ⟨?_, ?_, ?_, ?_⟩
          · rw [h]; rfl
          · rw [h]; rfl
          · intro m hmem
            rw [h] at hmem
            simp at hmem
          · intro b hmem
            rw [h] at hmem
            simp at hmem
            rcases hmem with rfl
            exact ⟨rfl, Or.inl ⟨e, hp, by rw [h]; simp⟩⟩
      | ok p =>
          have h := mainRun_ok env fs body p ho hp
          have hb1 : (Site.mainRes == Site.front) = false := by decide
          have hb2 : (Site.mainRes == Site.back) = false := by decide
          refine ⟨?_, ?_, ?_, ?_⟩
          · rw [h]
            simp only [countGets_append, countGets_spriteStep, countGets_fieldPrints,
              frontStepOf, backStepOf, countGets_head2]
            simp
          · rw [h]
            simp only [countSignals_append, countSignals_spriteStep,
              countSignals_fieldPrints, frontStepOf, backStepOf]
            rfl
          · intro m hmem
            rw [h] at hmem
            rcases List.mem_append.mp hmem with hx | hx2
            · rcases List.mem_append.mp hx with hx | hx1
              · rcases List.mem_append.mp hx with hx0 | hxp
                · simp at hx0
                · simp [List.mem_map] at hxp
              · exact absurd hx1 (by
                  simpa [frontStepOf] using spriteStep_no_sendError Site.front "front"
                    "Front" p.sprites.frontDefault (frontFilename p.name) env.frontGet
                    env.frontCreate env.frontWrite fs m)
            · exact absurd hx2 (by
                simpa [backStepOf] using spriteStep_no_sendError Site.back "back"
                  "Back" p.sprites.backDefault (backFilename p.name) env.backGet
                  env.backCreate env.backWrite (frontStepOf env p fs).2 m)
          · intro b hmem
            rw [h] at hmem
            have hbody : b = body := by
              rcases List.mem_append.mp hmem with hx | hx2
              · rcases List.mem_append.mp hx with hx | hx1
                · rcases List.mem_append.mp hx with hx0 | hxp
                  · simp at hx0
                    exact hx0
                  · simp [List.mem_map] at hxp
                · exact absurd hx1 (by
                    simpa [frontStepOf] using spriteStep_no_sendResult Site.front
                      "front" "Front" p.sprites.frontDefault (frontFilename p.name)
                      env.frontGet env.frontCreate env.frontWrite fs b)
              · exact absurd hx2 (by
                  simpa [backStepOf] using spriteStep_no_sendResult Site.back "back"
                    "Back" p.sprites.backDefault (backFilename p.name) env.backGet
                    env.backCreate env.backWrite (frontStepOf env p fs).2 b)
            subst hbody
            refine ⟨rfl, Or.inr ⟨p, hp, ?_⟩⟩
            rw [h]
            simp [List.mem_append, fieldPrints]

/-- Witness for C8 in the all-success run. -/
theorem mainRun_single_worker_witness :
    countGets Site.mainRes (mainRun envAllOk fsEmpty).1 = 1 :=
  (mainRun_single_worker envAllOk fsEmpty).1
